import Mathlib

/-!
Shallow embedding of the unreal-mcp MCP server (two TypeScript sources:
`src/index.ts`, v0.1.0, and the v0.2.0 variant with SSH-based output
capture). The embedded parts are the HTTP invoker `ue`, the result
helpers `ok`/`err`, the out-of-band capture protocol
(`execPythonWithOutput`, `sshRead`) and the tool handlers.

JavaScript runtime values flowing through the code are JSON values
(everything `JSON.parse` can produce), modelled by `Json` below.
Library builtins with environment-dependent behaviour (`fetch`,
`JSON.parse`, `execSync`) are modelled as oracle fields of an `Env`
record; each handler returns its result together with the list of
externally visible events (HTTP exchanges, timer sleeps, shell reads)
it performed, in order.
-/

set_option autoImplicit false

namespace UnrealMcp

/-- JSON / JavaScript runtime values. Numbers are modelled as integers
(no claim depends on float behaviour). -/
inductive Json where
  | null
  | bool (b : Bool)
  | num (n : Int)
  | str (s : String)
  | arr (elems : List Json)
  | obj (fields : List (String × Json))

/-- JavaScript property access `j.k`: a key lookup on an object, and
`undefined` (modelled as `none`) on everything else. (On a JS string or
number such an access is `undefined`; the code never accesses a
property of `null`, where JS would throw.) -/
def Json.get? : Json → String → Option Json
  | .obj fields, k => (fields.find? (fun f => f.1 = k)).map (fun f => f.2)
  | _, _ => none

/-- JavaScript truthiness of a value. -/
def Json.truthy : Json → Bool
  | .null => false
  | .bool b => b
  | .num n => decide (n ≠ 0)
  | .str s => decide (s ≠ "")
  | .arr _ => true
  | .obj _ => true

/-- Truthiness of a possibly-`undefined` value (`undefined` is falsy). -/
def jsTruthy : Option Json → Bool
  | none => false
  | some j => j.truthy

/-- Is the value a JSON array? -/
def Json.isArr : Json → Bool
  | .arr _ => true
  | _ => false

/-- JavaScript `String(x)` conversion, by recursion fuel (the fuel is
always sufficient below; arrays join their elements with commas,
objects print as in JS). -/
def jsToStringFuel : Nat → Json → String
  | 0, _ => ""
  | _ + 1, .null => "null"
  | _ + 1, .bool true => "true"
  | _ + 1, .bool false => "false"
  | _ + 1, .num n => toString n
  | _ + 1, .str s => s
  | f + 1, .arr xs => String.intercalate ","
      (xs.map (fun x => match x with
        | .null => ""
        | y => jsToStringFuel f y))
  | _ + 1, .obj _ => "[object Object]"

/-- JavaScript `String(x)`. -/
def jsToString (j : Json) : String := jsToStringFuel 4 j

/-- Hexadecimal digit (lower case), as printed by `JSON.stringify`
escapes. -/
def hexDigit (n : Nat) : Char :=
  if n < 10 then Char.ofNat (48 + n) else Char.ofNat (87 + n)

/-- Four-digit hexadecimal rendering of a code point. -/
def hex4 (n : Nat) : String :=
  ⟨[hexDigit (n / 4096 % 16), hexDigit (n / 256 % 16),
    hexDigit (n / 16 % 16), hexDigit (n % 16)]⟩

/-- One character of the string escaping of `JSON.stringify`. -/
def jsonEscapeChar (c : Char) : String :=
  if c = '"' then "\\\""
  else if c = '\\' then "\\\\"
  else if c = '\n' then "\\n"
  else if c = '\r' then "\\r"
  else if c = '\t' then "\\t"
  else if c = '\x08' then "\\b"
  else if c = '\x0c' then "\\f"
  else if c.toNat < 32 then "\\u" ++ hex4 c.toNat
  else String.singleton c

/-- `JSON.stringify` applied to a string: quote and escape. -/
def jsonQuote (s : String) : String :=
  "\"" ++ String.join (s.data.map jsonEscapeChar) ++ "\""

/-- `String.prototype.slice(0, n)`, at character granularity. -/
def sliceTo (s : String) (n : Nat) : String := ⟨s.data.take n⟩

/-- `JSON.stringify(v, null, 2)` (pretty, two-space indent), by fuel;
mutual recursion with the list renderers is routed through the fuel
argument. No theorem below inspects this text. -/
def stringifyFuel : Nat → Nat → Json → String
  | 0, _, _ => ""
  | _ + 1, _, .null => "null"
  | _ + 1, _, .bool true => "true"
  | _ + 1, _, .bool false => "false"
  | _ + 1, _, .num n => toString n
  | _ + 1, _, .str s => jsonQuote s
  | f + 1, ind, .arr xs =>
      if xs.isEmpty then "[]"
      else "[\n" ++ String.intercalate ",\n"
            (xs.map (fun x =>
              String.mk (List.replicate (ind + 2) ' ') ++ stringifyFuel f (ind + 2) x))
        ++ "\n" ++ String.mk (List.replicate ind ' ') ++ "]"
  | f + 1, ind, .obj fs =>
      if fs.isEmpty then "\x7b\x7d"
      else "\x7b\n" ++ String.intercalate ",\n"
            (fs.map (fun kv =>
              String.mk (List.replicate (ind + 2) ' ') ++ jsonQuote kv.1 ++ ": "
                ++ stringifyFuel f (ind + 2) kv.2))
        ++ "\n" ++ String.mk (List.replicate ind ' ') ++ "\x7d"

mutual

/-- Nesting depth of a JSON value (fuel bound for the renderer). -/
def Json.depth : Json → Nat
  | .null => 1
  | .bool _ => 1
  | .num _ => 1
  | .str _ => 1
  | .arr xs => 1 + depthList xs
  | .obj fs => 1 + depthFields fs

/-- Maximal depth of the elements of a JSON array. -/
def depthList : List Json → Nat
  | [] => 0
  | x :: xs => max x.depth (depthList xs)

/-- Maximal depth of the values of a JSON object. -/
def depthFields : List (String × Json) → Nat
  | [] => 0
  | kv :: fs => max kv.2.depth (depthFields fs)

end

/-- `JSON.stringify(v, null, 2)`; the depth bound makes the fuel
sufficient. -/
def stringifyPretty (j : Json) : String := stringifyFuel j.depth 0 j

-- ─── HTTP layer ───

/-- An HTTP request as issued by the invoker: method, path, and the
structured body (recorded before serialization), `none` when the
source passes no body. -/
structure HttpRequest where
  method : String
  path : String
  body : Option Json

/-- The answer of the remote endpoint to one request: `ok` is `resp.ok`
(status in 200–299), together with the status code and the body text. -/
structure HttpResponse where
  ok : Bool
  status : Nat
  text : String

/-- Externally visible events of one tool invocation, in order. -/
inductive Event where
  | http (req : HttpRequest) (resp : HttpResponse)
  | sleep (ms : Nat)
  | shell (cmd : String) (result : Except String String)

/-- The environment a handler runs against: the response
function of the endpoint (`fetch`), the `JSON.parse` oracle (`.error` = the exception
message thrown on invalid JSON), the `execSync` oracle (`.error` = the
exception message on a failed shell command), and the configuration
read from the environment variables at startup. -/
structure Env where
  respond : HttpRequest → HttpResponse
  jsonParse : String → Except String Json
  shellExec : String → Except String String
  sshUser : String
  host : String

/-- The message of the error thrown by `ue` on a failure status:
``UE ${method} ${path} → ${resp.status}: ${text.slice(0, 500)}``. -/
def ueFailMsg (method path : String) (resp : HttpResponse) : String :=
  "UE " ++ method ++ " " ++ path ++ " → " ++ toString resp.status
    ++ ": " ++ sliceTo resp.text 500

/-- Outcome of `ue` given the response: on a failure status, throw the
formatted error with a 500-character body snippet; on success,
`JSON.parse` the text, falling back to the raw text, or `null` when it
is empty (`text || null`). -/
def ueResult (jp : String → Except String Json) (method path : String)
    (resp : HttpResponse) : Except String Json :=
  if resp.ok = false then
    .error (ueFailMsg method path resp)
  else
    match jp resp.text with
    | .ok j => .ok j
    | .error _ => if resp.text = "" then .ok .null else .ok (.str resp.text)

/-- The invoker `ue(method, path, body)`: one fetch against the
endpoint, then `ueResult`. Identical in both source files. -/
def ue (env : Env) (method path : String) (body : Option Json) :
    Except String Json × List Event :=
  let req : HttpRequest := ⟨method, path, body⟩
  let resp := env.respond req
  (ueResult env.jsonParse method path resp, [Event.http req resp])

-- ─── Result helpers ───

/-- A tool result: the `content` texts (every item has `type: "text"`,
so only the text is modelled) and the `isError` flag (absent = false). -/
structure ToolResult where
  content : List String
  isError : Bool

/-- `ok(data)`: pass a string through, pretty-print anything else. -/
def ok (data : Json) : ToolResult :=
  ⟨[match data with
    | .str s => s
    | d => stringifyPretty d], false⟩

/-- `err(error)`: uniform failure payload. All errors thrown in the
model carry their message string, so the
`error instanceof Error ? error.message : String(error)` distinction
collapses to the message itself. -/
def err (msg : String) : ToolResult :=
  ⟨["Error: " ++ msg], true⟩

/-- Wrap the outcome of a fallible step as the try/catch of each handler does:
`ok` on success, `err` on any thrown error. -/
def runTool (step : Except String Json × List Event) : ToolResult × List Event :=
  match step with
  | (.ok v, tr) => (ok v, tr)
  | (.error m, tr) => (err m, tr)

-- ─── Out-of-band capture protocol (v0.2.0 source) ───

/-- The fixed result-file path on the remote host. -/
def RESULT_FILE : String := "C:/tmp/nora_mcp_result.json"

/-- The shell command built by `sshRead(remotePath)`: forward slashes
become backslashes and the file is read with Windows `type`. -/
def sshCmdFor (user host remotePath : String) : String :=
  "ssh -o ConnectTimeout=3 -o StrictHostKeyChecking=no " ++ user ++ "@" ++ host
    ++ " \"type " ++ remotePath.replace "/" "\\" ++ "\""

/-- `sshRead(remotePath)`: run the shell command through `execSync`,
recording the read as an event. -/
def sshRead (env : Env) (remotePath : String) :
    Except String String × Event :=
  let cmd := sshCmdFor env.sshUser env.host remotePath
  let r := env.shellExec cmd
  (r, Event.shell cmd r)

/-- The Python harness wrapping the code of the caller: capture stdout in a
buffer, catch any exception as a traceback, and always dump
`\x7b"output", "error"\x7d` as JSON to the fixed result file. The template
leading and trailing newlines of the template literal are removed by `.trim()`. -/
def pyWrapper (code : String) : String :=
  "import sys, io, json, traceback\n"
    ++ "_nora_stdout = sys.stdout\n"
    ++ "_nora_buf = io.StringIO()\n"
    ++ "sys.stdout = _nora_buf\n"
    ++ "_nora_err = None\n"
    ++ "try:\n"
    ++ "    exec(" ++ jsonQuote code ++ ")\n"
    ++ "except Exception as e:\n"
    ++ "    _nora_err = traceback.format_exc()\n"
    ++ "finally:\n"
    ++ "    sys.stdout = _nora_stdout\n"
    ++ "    _nora_out = _nora_buf.getvalue()\n"
    ++ "    with open(" ++ jsonQuote RESULT_FILE
    ++ ", \x27w\x27, encoding=\x27utf-8\x27) as f:\n"
    ++ "        json.dump(\x7b\"output\": _nora_out, \"error\": _nora_err\x7d, f)"

/-- The dispatch request sent by `execPythonWithOutput`: the harness as
the `PythonCommand` of one `ExecutePythonCommand` call. -/
def pyDispatchReq (code : String) : HttpRequest :=
  ⟨"PUT", "/remote/object/call",
    some (.obj
      [("objectPath", .str "/Script/PythonScriptPlugin.Default__PythonScriptLibrary"),
       ("functionName", .str "ExecutePythonCommand"),
       ("parameters", .obj [("PythonCommand", .str (pyWrapper code))])])⟩

/-- `execPythonWithOutput(code)`: dispatch the harness, sleep 200ms,
read the result file back over SSH, parse it, then fail with the
error of the record when that field is truthy (`if (result.error)`) and
otherwise return the output, substituting the sentinel when the output
is falsy (`result.output || "(no output)"`). -/
def execPythonWithOutput (env : Env) (code : String) :
    Except String Json × List Event :=
  let req := pyDispatchReq code
  let resp := env.respond req
  let e1 := Event.http req resp
  match ueResult env.jsonParse "PUT" "/remote/object/call" resp with
  | .error m => (.error m, [e1])
  | .ok _ =>
    let e2 := Event.sleep 200
    let (raw?, e3) := sshRead env RESULT_FILE
    match raw? with
    | .error m => (.error m, [e1, e2, e3])
    | .ok raw =>
      match env.jsonParse raw with
      | .error m => (.error m, [e1, e2, e3])
      | .ok result =>
        if jsTruthy (result.get? "error") then
          (.error (jsToString ((result.get? "error").getD .null)), [e1, e2, e3])
        else
          (.ok (if jsTruthy (result.get? "output")
                then (result.get? "output").getD .null
                else .str "(no output)"), [e1, e2, e3])

-- ─── Tool handlers ───

/-- The request issued by `ue_get_property`. -/
def getPropReq (object_path property_name : String) : HttpRequest :=
  ⟨"PUT", "/remote/object/property",
    some (.obj
      [("objectPath", .str object_path),
       ("access", .str "READ_ACCESS"),
       ("propertyName", .str property_name)])⟩

/-- `ue_get_property`: one PUT to the property endpoint with
`READ_ACCESS`, the response passed to `ok` unmodified. Identical in
both source files. -/
def ue_get_property (env : Env) (object_path property_name : String) :
    ToolResult × List Event :=
  runTool (ue env "PUT" "/remote/object/property"
    (some (.obj
      [("objectPath", .str object_path),
       ("access", .str "READ_ACCESS"),
       ("propertyName", .str property_name)])))

/-- The request issued by `ue_set_property` for a given (already
parsed-or-raw) property value. -/
def setPropReq (object_path property_name : String) (v : Json) : HttpRequest :=
  ⟨"PUT", "/remote/object/property",
    some (.obj
      [("objectPath", .str object_path),
       ("access", .str "WRITE_TRANSACTION_ACCESS"),
       ("propertyName", .str property_name),
       ("propertyValue", v)])⟩

/-- `ue_set_property`: `JSON.parse` the given value, silently fall
back to the raw string when it is not valid JSON, then one PUT with
`WRITE_TRANSACTION_ACCESS`. Identical in both source files. -/
def ue_set_property (env : Env) (object_path property_name value : String) :
    ToolResult × List Event :=
  let parsed : Json :=
    match env.jsonParse value with
    | .ok j => j
    | .error _ => .str value
  runTool (ue env "PUT" "/remote/object/property"
    (some (.obj
      [("objectPath", .str object_path),
       ("access", .str "WRITE_TRANSACTION_ACCESS"),
       ("propertyName", .str property_name),
       ("propertyValue", parsed)])))

/-- The request issued by `ue_call_function` for given (already
defaulted/parsed) parameters. -/
def callFnReq (object_path function_name : String) (params : Json)
    (generate_transaction : Bool) : HttpRequest :=
  ⟨"PUT", "/remote/object/call",
    some (.obj
      [("objectPath", .str object_path),
       ("functionName", .str function_name),
       ("parameters", params),
       ("generateTransaction", .bool generate_transaction)])⟩

/-- `ue_call_function`: parameters default to `\x7b\x7d`; the parse is
attempted only when the string is truthy (`if (parameters)`), so a
supplied empty string also defaults; an invalid non-empty string is
rejected before any HTTP request. Identical in both source files. -/
def ue_call_function (env : Env) (object_path function_name : String)
    (parameters : Option String) (generate_transaction : Bool) :
    ToolResult × List Event :=
  let pstep : Except String Json :=
    match parameters with
    | none => .ok (.obj [])
    | some p =>
      if p = "" then .ok (.obj [])
      else
        match env.jsonParse p with
        | .ok j => .ok j
        | .error _ => .error p
  match pstep with
  | .error p => (err ("Invalid JSON in parameters: " ++ p), [])
  | .ok params =>
    runTool (ue env "PUT" "/remote/object/call"
      (some (.obj
        [("objectPath", .str object_path),
         ("functionName", .str function_name),
         ("parameters", params),
         ("generateTransaction", .bool generate_transaction)])))

/-- The request issued by `ue_batch` for a given parsed requests value. -/
def batchReq (parsed : Json) : HttpRequest :=
  ⟨"PUT", "/remote/batch", some (.obj [("requests", parsed)])⟩

/-- `ue_batch`: parse the requests string, rejecting invalid JSON with
a 200-character snippet before any HTTP request; the parsed value is
forwarded as the `requests` field with no shape check (the
`unknown[]` annotation is not enforced at runtime). Identical in both
source files. -/
def ue_batch (env : Env) (requests : String) : ToolResult × List Event :=
  match env.jsonParse requests with
  | .error _ => (err ("Invalid JSON array: " ++ sliceTo requests 200), [])
  | .ok parsed =>
    runTool (ue env "PUT" "/remote/batch"
      (some (.obj [("requests", parsed)])))

/-- `x ?? []` followed by `.map`: `undefined`/`null` become the empty
list, an array maps, and anything else throws a TypeError at the
`.map` call (caught by the try/catch of the handler). -/
def nullishArr : Option Json → Except String (List Json)
  | none => .ok []
  | some .null => .ok []
  | some (.arr xs) => .ok xs
  | some _ => .error "TypeError: map is not a function"

/-- Property access whose `undefined` is rendered as JSON null when the
summary object is later stringified (no theorem inspects these texts). -/
def jsGet (j : Json) (k : String) : Json := (j.get? k).getD .null

/-- One entry of the `Properties` summary of `ue_describe_object`:
`Name`, `Type`, and `Description` only when truthy (the conditional
spread). -/
def summProp (p : Json) : Json :=
  .obj ([("Name", jsGet p "Name"), ("Type", jsGet p "Type")]
    ++ (if jsTruthy (p.get? "Description")
        then [("Description", jsGet p "Description")] else []))

/-- One entry of the `Functions` summary of `ue_describe_object`. -/
def summFn (f : Json) : Json :=
  .obj ([("Name", jsGet f "Name")]
    ++ (if jsTruthy (f.get? "Description")
        then [("Description", jsGet f "Description")] else []))

/-- `ue_describe_object` (v0.2.0 source): one describe call, then a
compact summary of the class, property and function lists. -/
def ue_describe_object (env : Env) (object_path : String) :
    ToolResult × List Event :=
  let (r, tr) := ue env "PUT" "/remote/object/describe"
    (some (.obj [("objectPath", .str object_path)]))
  match r with
  | .error m => (err m, tr)
  | .ok raw =>
    match nullishArr (raw.get? "Properties"), nullishArr (raw.get? "Functions") with
    | .ok props, .ok funcs =>
      (ok (.obj
        [("Class", jsGet raw "Class"),
         ("Name", jsGet raw "Name"),
         ("PropertyCount", .num props.length),
         ("Properties", .arr (props.map summProp)),
         ("FunctionCount", .num funcs.length),
         ("Functions", .arr (funcs.map summFn))]), tr)
    | .error m, _ => (err m, tr)
    | _, .error m => (err m, tr)

/-- The search filter built by `ue_search_assets`: each part only when
the given string is truthy (non-empty). -/
def searchFilter (class_names path_filter : Option String) : Json :=
  .obj ((match class_names with
    | some cs =>
      if cs = "" then []
      else [("classNames", .arr ((cs.splitOn ",").map (fun s => .str s.trim)))]
    | none => [])
  ++ (match path_filter with
    | some pf => if pf = "" then [] else [("paths", .arr [.str pf])]
    | none => []))

/-- One entry of the compact asset list of `ue_search_assets`. -/
def compactAsset (a : Json) : Json :=
  .obj [("Name", jsGet a "Name"), ("Class", jsGet a "Class"),
        ("Path", jsGet a "Path")]

/-- `ue_search_assets` (v0.2.0 source): one search call, then a compact
`Count`/`Assets` summary. -/
def ue_search_assets (env : Env) (query : String)
    (class_names path_filter : Option String) : ToolResult × List Event :=
  let (r, tr) := ue env "PUT" "/remote/search/assets"
    (some (.obj
      [("query", .str query),
       ("filter", searchFilter class_names path_filter)]))
  match r with
  | .error m => (err m, tr)
  | .ok raw =>
    match nullishArr (raw.get? "Assets") with
    | .ok assets =>
      (ok (.obj
        [("Count", .num assets.length),
         ("Assets", .arr (assets.map compactAsset))]), tr)
    | .error m => (err m, tr)

/-- `ue_exec_python` (v0.2.0 source): the outcome of the capture protocol,
`ok` on the captured output and `err` on any failure. -/
def ue_exec_python (env : Env) (code : String) : ToolResult × List Event :=
  runTool (execPythonWithOutput env code)

/-- `ue_exec_console`: one fire-and-forget console-command call; the
success text does not come from the response. -/
def ue_exec_console (env : Env) (command : String) : ToolResult × List Event :=
  let (r, tr) := ue env "PUT" "/remote/object/call"
    (some (.obj
      [("objectPath", .str "/Script/Engine.Default__KismetSystemLibrary"),
       ("functionName", .str "ExecuteConsoleCommand"),
       ("parameters", .obj
         [("WorldContextObject", .obj [("objectPath", .str "")]),
          ("Command", .str command)])]))
  match r with
  | .ok _ => (ok (.str ("Console command sent: " ++ command
      ++ "\nCheck UE Output Log for results.")), tr)
  | .error m => (err m, tr)

/-- `ue_remote_info`: one GET with no body. -/
def ue_remote_info (env : Env) : ToolResult × List Event :=
  runTool (ue env "GET" "/remote/info" none)

/-- `ue_list_actors` (v0.2.0 source): the capture protocol on a fixed
actor-listing script (the template literal keeps its surrounding
newlines — no `.trim()` here). -/
def ue_list_actors (env : Env) : ToolResult × List Event :=
  runTool (execPythonWithOutput env
    ("\nimport unreal\nactors = unreal.EditorLevelLibrary.get_all_level_actors()\nfor a in actors:\n    loc = a.get_actor_location()\n    print(f\"\x7ba.get_name()\x7d | \x7ba.get_class().get_name()\x7d | (\x7bloc.x:.0f\x7d, \x7bloc.y:.0f\x7d, \x7bloc.z:.0f\x7d)\")\n"))

-- ─── Concrete environments for witnesses and counterexamples ───

/-- Result-file text whose record carries the empty string as its
error trace. -/
def rawEmptyErr : String := "\x7b\"output\":\"x\",\"error\":\"\"\x7d"

/-- The record parsed from `rawEmptyErr`. -/
def recEmptyErr : Json := .obj [("output", .str "x"), ("error", .str "")]

/-- Result-file text for a successful run that printed `hi`. -/
def rawHi : String := "\x7b\"output\":\"hi\\n\",\"error\":null\x7d"

/-- The record parsed from `rawHi`. -/
def recHi : Json := .obj [("output", .str "hi\n"), ("error", .null)]

/-- Result-file text whose record carries a traceback. -/
def rawBoom : String := "\x7b\"output\":\"\",\"error\":\"Traceback: boom\"\x7d"

/-- The record parsed from `rawBoom`. -/
def recBoom : Json := .obj [("output", .str ""), ("error", .str "Traceback: boom")]

/-- Result-file text for a successful run with no output. -/
def rawEmptyOut : String := "\x7b\"output\":\"\",\"error\":null\x7d"

/-- The record parsed from `rawEmptyOut`. -/
def recEmptyOut : Json := .obj [("output", .str ""), ("error", .null)]

/-- A `JSON.parse` oracle agreeing with JavaScript on the handful of
texts the concrete environments use (and throwing on everything else,
in particular on the empty string and on non-JSON text). -/
def demoParse (s : String) : Except String Json :=
  if s = "null" then .ok .null
  else if s = "5" then .ok (.num 5)
  else if s = "\x7b\"Value\":7\x7d" then .ok (.obj [("Value", .num 7)])
  else if s = rawEmptyErr then .ok recEmptyErr
  else if s = rawHi then .ok recHi
  else if s = rawBoom then .ok recBoom
  else if s = rawEmptyOut then .ok recEmptyOut
  else .error "SyntaxError: Unexpected token"

/-- An environment whose endpoint always answers 200 with the given
body text and whose shell read always yields the given outcome. -/
def mkEnv (respText : String) (sh : Except String String) : Env :=
  ⟨fun _ => ⟨true, 200, respText⟩, demoParse, fun _ => sh, "claude", "127.0.0.1"⟩

/-- Environment whose result file holds an empty-string error trace. -/
def envEmptyErr : Env := mkEnv "null" (.ok rawEmptyErr)

/-- Environment whose result file holds a traceback. -/
def envBoom : Env := mkEnv "null" (.ok rawBoom)

/-- Environment whose result file holds a successful empty output. -/
def envEmptyOut : Env := mkEnv "null" (.ok rawEmptyOut)

/-- Environment whose result file holds output `"hi\n"`. -/
def envHi : Env := mkEnv "null" (.ok rawHi)

/-- Environment whose endpoint answers every request with the JSON
body `\x7b"Value":7\x7d`. -/
def envValue : Env := mkEnv "\x7b\"Value\":7\x7d" (.error "unreachable")

-- ─── Theorems ───

/-- C4: every HTTP exchange through `ue` whose response status is a
failure throws an error whose message is the fixed format carrying the
method, the path, the status code and the body truncated to its first
500 characters — the method, path, status and truncated body all occur
in the message, and the body portion never exceeds 500 characters and
is a prefix of the body. -/
theorem ue_failure_truncated (jp : String → Except String Json)
    (method path : String) (resp : HttpResponse) (hfail : resp.ok = false) :
    ueResult jp method path resp = .error (ueFailMsg method path resp)
    ∧ ueFailMsg method path resp
        = "UE " ++ method ++ " " ++ path ++ " → " ++ toString resp.status
          ++ ": " ++ sliceTo resp.text 500
    ∧ method.data <:+: (ueFailMsg method path resp).data
    ∧ path.data <:+: (ueFailMsg method path resp).data
    ∧ (toString resp.status).data <:+: (ueFailMsg method path resp).data
    ∧ (sliceTo resp.text 500).data <:+: (ueFailMsg method path resp).data
    ∧ (sliceTo resp.text 500).data <+: resp.text.data
    ∧ (sliceTo resp.text 500).length ≤ 500 := by
  have hdata : (ueFailMsg method path resp).data
      = "UE ".data ++ (method.data ++ (" ".data ++ (path.data ++ (" → ".data
        ++ ((toString resp.status).data ++ (": ".data
        ++ (sliceTo resp.text 500).data)))))) := by
    simp [ueFailMsg, String.data_append, List.append_assoc]
  refine ⟨by simp [ueResult, hfail], rfl, ?_, ?_, ?_, ?_, ?_, ?_⟩
  · refine ⟨"UE ".data, " ".data ++ (path.data ++ (" → ".data
      ++ ((toString resp.status).data ++ (": ".data
      ++ (sliceTo resp.text 500).data)))), ?_⟩
    rw [hdata]; simp [List.append_assoc]
  · refine ⟨"UE ".data ++ (method.data ++ " ".data),
      " → ".data ++ ((toString resp.status).data ++ (": ".data
        ++ (sliceTo resp.text 500).data)), ?_⟩
    rw [hdata]; simp [List.append_assoc]
  · refine ⟨"UE ".data ++ (method.data ++ (" ".data ++ (path.data ++ " → ".data))),
      ": ".data ++ (sliceTo resp.text 500).data, ?_⟩
    rw [hdata]; simp [List.append_assoc]
  · refine ⟨"UE ".data ++ (method.data ++ (" ".data ++ (path.data ++ (" → ".data
      ++ ((toString resp.status).data ++ ": ".data))))), [], ?_⟩
    rw [hdata]; simp [List.append_assoc]
  · exact ⟨resp.text.data.drop 500, by simp [sliceTo]⟩
  · exact resp.text.data.length_take_le 500

/-- Closed instance of `ue_failure_truncated` at a concrete failing
response. -/
theorem ue_failure_truncated_witness :
    ueResult demoParse "PUT" "/remote/object/property" ⟨false, 404, "Not Found"⟩
      = .error (ueFailMsg "PUT" "/remote/object/property" ⟨false, 404, "Not Found"⟩)
    ∧ ueFailMsg "PUT" "/remote/object/property" ⟨false, 404, "Not Found"⟩
      = "UE " ++ "PUT" ++ " " ++ "/remote/object/property" ++ " → "
        ++ toString (404 : Nat) ++ ": " ++ sliceTo "Not Found" 500
    ∧ "PUT".data <:+: (ueFailMsg "PUT" "/remote/object/property" ⟨false, 404, "Not Found"⟩).data
    ∧ "/remote/object/property".data
        <:+: (ueFailMsg "PUT" "/remote/object/property" ⟨false, 404, "Not Found"⟩).data
    ∧ (toString (404 : Nat)).data
        <:+: (ueFailMsg "PUT" "/remote/object/property" ⟨false, 404, "Not Found"⟩).data
    ∧ (sliceTo "Not Found" 500).data
        <:+: (ueFailMsg "PUT" "/remote/object/property" ⟨false, 404, "Not Found"⟩).data
    ∧ (sliceTo "Not Found" 500).data <+: "Not Found".data
    ∧ (sliceTo "Not Found" 500).length ≤ 500 :=
  ue_failure_truncated demoParse "PUT" "/remote/object/property"
    ⟨false, 404, "Not Found"⟩ rfl

/-- C5: every HTTP exchange through `ue` whose response status is a
success parses the body text as JSON and returns the parsed value; if
parsing throws, the raw text is returned, and `null` when the text is
empty. -/
theorem ue_success_body_parse (jp : String → Except String Json)
    (method path : String) (resp : HttpResponse) (hgood : resp.ok = true) :
    (∀ j, jp resp.text = .ok j → ueResult jp method path resp = .ok j)
    ∧ (∀ e, jp resp.text = .error e → resp.text ≠ "" →
        ueResult jp method path resp = .ok (.str resp.text))
    ∧ (∀ e, jp resp.text = .error e → resp.text = "" →
        ueResult jp method path resp = .ok .null) := by
  refine ⟨fun j hj => ?_, fun e he hne => ?_, fun e he hemp => ?_⟩
  · simp [ueResult, hgood, hj]
  · simp [ueResult, hgood, he, hne]
  · rw [hemp] at he; simp [ueResult, hgood, he, hemp]

/-- Closed instance of `ue_success_body_parse`: a JSON body, a
non-JSON non-empty body, and an empty body. -/
theorem ue_success_body_parse_witness :
    ueResult demoParse "GET" "/remote/info" ⟨true, 200, "5"⟩ = .ok (.num 5)
    ∧ ueResult demoParse "GET" "/remote/info" ⟨true, 200, "raw text"⟩
        = .ok (.str "raw text")
    ∧ ueResult demoParse "GET" "/remote/info" ⟨true, 200, ""⟩ = .ok .null :=
  ⟨(ue_success_body_parse demoParse "GET" "/remote/info" ⟨true, 200, "5"⟩ rfl).1
      (.num 5) rfl,
   (ue_success_body_parse demoParse "GET" "/remote/info" ⟨true, 200, "raw text"⟩ rfl).2.1
      "SyntaxError: Unexpected token" rfl (by decide),
   (ue_success_body_parse demoParse "GET" "/remote/info" ⟨true, 200, ""⟩ rfl).2.2
      "SyntaxError: Unexpected token" rfl rfl⟩

/-- On a success status, `ue` never throws: whatever the parse oracle
does to the body, the result is some `.ok` value. -/
theorem ueResult_ok_of_status (jp : String → Except String Json)
    (method path : String) (resp : HttpResponse) (hgood : resp.ok = true) :
    ∃ v, ueResult jp method path resp = .ok v := by
  unfold ueResult
  rw [hgood]
  cases hj : jp resp.text with
  | ok j => exact ⟨j, by simp [hj]⟩
  | error e =>
    by_cases hemp : resp.text = ""
    · exact ⟨.null, by simp [hj, hemp]⟩
    · exact ⟨.str resp.text, by simp [hj, hemp]⟩

/-- Shared shape of a capture run that reaches the parsed record: the
trace is exactly dispatch, settle sleep, shell read, and the outcome
is decided by the `error`/`output` fields of the record under JavaScript
truthiness. -/
theorem capture_record_stage (env : Env) (code raw : String) (r : Json)
    (hdisp : (env.respond (pyDispatchReq code)).ok = true)
    (hread : env.shellExec (sshCmdFor env.sshUser env.host RESULT_FILE) = .ok raw)
    (hrec : env.jsonParse raw = .ok r) :
    execPythonWithOutput env code
      = (if jsTruthy (r.get? "error")
         then .error (jsToString ((r.get? "error").getD .null))
         else .ok (if jsTruthy (r.get? "output")
                   then (r.get? "output").getD .null
                   else .str "(no output)"),
        [Event.http (pyDispatchReq code) (env.respond (pyDispatchReq code)),
         Event.sleep 200,
         Event.shell (sshCmdFor env.sshUser env.host RESULT_FILE) (.ok raw)]) := by
  obtain ⟨v, hv⟩ := ueResult_ok_of_status env.jsonParse "PUT" "/remote/object/call"
    (env.respond (pyDispatchReq code)) hdisp
  unfold execPythonWithOutput
  simp only [hv, sshRead, hread, hrec]
  split <;> rfl

/-- C1 (amended): for every capture run whose retrieved record has a
truthy `error` field (non-null and, for a string trace, non-empty),
the operation fails with `String(error)` as its message — in
particular with the trace itself when the error is a string — and
returns no output. The "non-null" of the original claim is weakened to
truthy by `capture_empty_trace_succeeds`. -/
theorem capture_truthy_error_fails (env : Env) (code raw : String) (r : Json)
    (hdisp : (env.respond (pyDispatchReq code)).ok = true)
    (hread : env.shellExec (sshCmdFor env.sshUser env.host RESULT_FILE) = .ok raw)
    (hrec : env.jsonParse raw = .ok r)
    (htr : jsTruthy (r.get? "error") = true) :
    (execPythonWithOutput env code).1
      = .error (jsToString ((r.get? "error").getD .null)) := by
  rw [capture_record_stage env code raw r hdisp hread hrec]
  simp [htr]

/-- Closed instance of `capture_truthy_error_fails`: a record carrying
a traceback makes the capture operation fail with exactly that trace. -/
theorem capture_truthy_error_fails_witness :
    (execPythonWithOutput envBoom "boom()").1
      = .error (jsToString ((recBoom.get? "error").getD .null)) :=
  capture_truthy_error_fails envBoom "boom()" rawBoom recBoom rfl rfl rfl rfl

/-- C1 (counterexample to the claim as stated): a retrieved record
whose `error` field is the empty string — non-null — does not fail the
capture operation; the output `"x"` is returned, because the source
tests `if (result.error)`, i.e. JavaScript truthiness, not nullness. -/
theorem capture_empty_trace_succeeds :
    envEmptyErr.jsonParse rawEmptyErr = .ok recEmptyErr
    ∧ recEmptyErr.get? "error" = some (Json.str "")
    ∧ Json.str "" ≠ Json.null
    ∧ (execPythonWithOutput envEmptyErr "pass").1 = .ok (.str "x") :=
  ⟨rfl, rfl, fun h => Json.noConfusion h, rfl⟩

/-- C2: for every capture run whose retrieved record has `error` null
and `output` the empty string, the operation succeeds and returns the
`"(no output)"` sentinel, which differs from the empty string. -/
theorem capture_empty_output_sentinel (env : Env) (code raw : String) (r : Json)
    (hdisp : (env.respond (pyDispatchReq code)).ok = true)
    (hread : env.shellExec (sshCmdFor env.sshUser env.host RESULT_FILE) = .ok raw)
    (hrec : env.jsonParse raw = .ok r)
    (herr : r.get? "error" = some .null)
    (hout : r.get? "output" = some (.str "")) :
    (execPythonWithOutput env code).1 = .ok (.str "(no output)")
    ∧ Json.str "(no output)" ≠ Json.str "" := by
  refine ⟨?_, by intro h; injection h with h2; exact absurd h2 (by decide)⟩
  rw [capture_record_stage env code raw r hdisp hread hrec]
  simp [herr, hout, jsTruthy, Json.truthy]

/-- Closed instance of `capture_empty_output_sentinel`. -/
theorem capture_empty_output_sentinel_witness :
    (execPythonWithOutput envEmptyOut "pass").1 = .ok (.str "(no output)")
    ∧ Json.str "(no output)" ≠ Json.str "" :=
  capture_empty_output_sentinel envEmptyOut "pass" rawEmptyOut recEmptyOut
    rfl rfl rfl rfl rfl

/-- C3: a capture run whose code prints and raises no exception — the
retrieved record holds the non-empty output and a null error —
performs exactly one harness-wrapped HTTP dispatch, then the fixed
200ms settle sleep, then exactly one shell read, in that order and
nothing else, and returns the captured output text; the dispatched
request wraps the given code in the Python harness as the
`PythonCommand` parameter. -/
theorem capture_success_sequence (env : Env) (code raw out : String) (r : Json)
    (hdisp : (env.respond (pyDispatchReq code)).ok = true)
    (hread : env.shellExec (sshCmdFor env.sshUser env.host RESULT_FILE) = .ok raw)
    (hrec : env.jsonParse raw = .ok r)
    (herr : r.get? "error" = some .null)
    (hout : r.get? "output" = some (.str out))
    (hne : out ≠ "") :
    execPythonWithOutput env code
      = (.ok (.str out),
        [Event.http (pyDispatchReq code) (env.respond (pyDispatchReq code)),
         Event.sleep 200,
         Event.shell (sshCmdFor env.sshUser env.host RESULT_FILE) (.ok raw)])
    ∧ pyDispatchReq code
      = ⟨"PUT", "/remote/object/call",
         some (.obj
           [("objectPath",
             .str "/Script/PythonScriptPlugin.Default__PythonScriptLibrary"),
            ("functionName", .str "ExecutePythonCommand"),
            ("parameters", .obj [("PythonCommand", .str (pyWrapper code))])])⟩ := by
  refine ⟨?_, rfl⟩
  rw [capture_record_stage env code raw r hdisp hread hrec]
  simp [herr, hout, jsTruthy, Json.truthy, hne]

/-- Closed instance of `capture_success_sequence`: printing `hi` comes
back as the output `"hi\n"` after one dispatch, one sleep, one read. -/
theorem capture_success_sequence_witness :
    execPythonWithOutput envHi "print(\"hi\")"
      = (.ok (.str "hi\n"),
        [Event.http (pyDispatchReq "print(\"hi\")")
           (envHi.respond (pyDispatchReq "print(\"hi\")")),
         Event.sleep 200,
         Event.shell (sshCmdFor envHi.sshUser envHi.host RESULT_FILE) (.ok rawHi)])
    ∧ pyDispatchReq "print(\"hi\")"
      = ⟨"PUT", "/remote/object/call",
         some (.obj
           [("objectPath",
             .str "/Script/PythonScriptPlugin.Default__PythonScriptLibrary"),
            ("functionName", .str "ExecutePythonCommand"),
            ("parameters", .obj
              [("PythonCommand", .str (pyWrapper "print(\"hi\")"))])])⟩ :=
  capture_success_sequence envHi "print(\"hi\")" rawHi "hi\n" recHi
    rfl rfl rfl rfl rfl (by decide)

/-- Shared shape of the simple handlers: when the endpoint answers a
success status whose body parses to `j`, the handler performs exactly
that one exchange and returns `ok j`. -/
theorem runTool_ue_ok (env : Env) (method path : String) (body : Option Json)
    (j : Json)
    (hgood : (env.respond ⟨method, path, body⟩).ok = true)
    (hbody : env.jsonParse (env.respond ⟨method, path, body⟩).text = .ok j) :
    runTool (ue env method path body)
      = (ok j, [Event.http ⟨method, path, body⟩ (env.respond ⟨method, path, body⟩)]) := by
  unfold runTool ue ueResult
  simp [hgood, hbody]

/-- C6: every invocation of `ue_get_property` issues exactly one PUT
to the property endpoint carrying `access = READ_ACCESS`, the object
path and the property name, and when the endpoint succeeds with a JSON
body the parsed body is handed to the caller unmodified (wrapped by
`ok`). -/
theorem get_property_single_put (env : Env) (object_path property_name : String)
    (j : Json)
    (hgood : (env.respond (getPropReq object_path property_name)).ok = true)
    (hbody : env.jsonParse
        (env.respond (getPropReq object_path property_name)).text = .ok j) :
    ue_get_property env object_path property_name
      = (ok j, [Event.http (getPropReq object_path property_name)
                  (env.respond (getPropReq object_path property_name))])
    ∧ getPropReq object_path property_name
      = ⟨"PUT", "/remote/object/property",
         some (.obj [("objectPath", .str object_path),
                     ("access", .str "READ_ACCESS"),
                     ("propertyName", .str property_name)])⟩ :=
  ⟨runTool_ue_ok env "PUT" "/remote/object/property"
    (some (.obj [("objectPath", .str object_path),
                 ("access", .str "READ_ACCESS"),
                 ("propertyName", .str property_name)])) j hgood hbody, rfl⟩

/-- Closed instance of `get_property_single_put` against the endpoint
returning `\x7b"Value":7\x7d`. -/
theorem get_property_single_put_witness :
    ue_get_property envValue "/Game/Maps/Main.Main:PersistentLevel.MyActor" "Value"
      = (ok (.obj [("Value", .num 7)]),
         [Event.http
            (getPropReq "/Game/Maps/Main.Main:PersistentLevel.MyActor" "Value")
            (envValue.respond
              (getPropReq "/Game/Maps/Main.Main:PersistentLevel.MyActor" "Value"))])
    ∧ getPropReq "/Game/Maps/Main.Main:PersistentLevel.MyActor" "Value"
      = ⟨"PUT", "/remote/object/property",
         some (.obj [("objectPath", .str "/Game/Maps/Main.Main:PersistentLevel.MyActor"),
                     ("access", .str "READ_ACCESS"),
                     ("propertyName", .str "Value")])⟩ :=
  get_property_single_put envValue "/Game/Maps/Main.Main:PersistentLevel.MyActor"
    "Value" (.obj [("Value", .num 7)]) rfl rfl

/-- C7 (counterexample to the claim as stated): the empty string fails
`JSON.parse`, yet `ue_call_function` supplied with it returns no error
and dispatches one HTTP request with the defaulted `\x7b\x7d` parameters —
`if (parameters)` skips the parse for a falsy (empty) string. -/
theorem call_function_empty_params_dispatches :
    envValue.jsonParse "" = .error "SyntaxError: Unexpected token"
    ∧ (ue_call_function envValue "/obj" "Fn" (some "") true).2
        = [Event.http (callFnReq "/obj" "Fn" (.obj []) true)
             (envValue.respond (callFnReq "/obj" "Fn" (.obj []) true))]
    ∧ (ue_call_function envValue "/obj" "Fn" (some "") true).1.isError = false :=
  ⟨rfl, rfl, rfl⟩

/-- C7 (amended): for `ue_call_function` with a supplied non-empty
parameter string that fails to parse, and for `ue_batch` with any
requests string that fails to parse, the handler returns the
payload-identifying error response and performs no event at all — the
transport is never reached. (The empty parameters string is the one
exception: it is treated as absent and defaults to `\x7b\x7d`.) -/
theorem invalid_params_rejected_before_dispatch (env : Env)
    (object_path function_name p requests : String) (gt : Bool) (e1 e2 : String)
    (hp : env.jsonParse p = .error e1) (hne : p ≠ "")
    (hrq : env.jsonParse requests = .error e2) :
    ue_call_function env object_path function_name (some p) gt
      = (err ("Invalid JSON in parameters: " ++ p), [])
    ∧ ue_batch env requests
      = (err ("Invalid JSON array: " ++ sliceTo requests 200), []) := by
  constructor
  · unfold ue_call_function
    simp [hne, hp]
  · unfold ue_batch
    simp [hrq]

/-- Closed instance of `invalid_params_rejected_before_dispatch`. -/
theorem invalid_params_rejected_before_dispatch_witness :
    ue_call_function envValue "/obj" "Fn" (some "not json") true
      = (err ("Invalid JSON in parameters: " ++ "not json"), [])
    ∧ ue_batch envValue "also not json"
      = (err ("Invalid JSON array: " ++ sliceTo "also not json" 200), []) :=
  invalid_params_rejected_before_dispatch envValue "/obj" "Fn" "not json"
    "also not json" true "SyntaxError: Unexpected token"
    "SyntaxError: Unexpected token" rfl (by decide) rfl

/-- C9: when the value string of `ue_set_property` is not valid JSON,
no validation error is produced: the raw string itself is forwarded as
the `propertyValue` of the one PUT request — in contrast with
`ue_call_function`, which rejects the same string before dispatching. -/
theorem set_property_raw_string_forward (env : Env)
    (object_path property_name value function_name : String) (gt : Bool)
    (e : String) (j : Json)
    (hval : env.jsonParse value = .error e) (hne : value ≠ "")
    (hgood : (env.respond (setPropReq object_path property_name (.str value))).ok = true)
    (hbody : env.jsonParse
        (env.respond (setPropReq object_path property_name (.str value))).text = .ok j) :
    ue_set_property env object_path property_name value
      = (ok j, [Event.http (setPropReq object_path property_name (.str value))
                  (env.respond (setPropReq object_path property_name (.str value)))])
    ∧ setPropReq object_path property_name (.str value)
      = ⟨"PUT", "/remote/object/property",
         some (.obj [("objectPath", .str object_path),
                     ("access", .str "WRITE_TRANSACTION_ACCESS"),
                     ("propertyName", .str property_name),
                     ("propertyValue", .str value)])⟩
    ∧ ue_call_function env object_path function_name (some value) gt
      = (err ("Invalid JSON in parameters: " ++ value), []) := by
  refine ⟨?_, rfl, ?_⟩
  · unfold ue_set_property
    rw [hval]
    exact runTool_ue_ok env "PUT" "/remote/object/property"
      (some (.obj [("objectPath", .str object_path),
                   ("access", .str "WRITE_TRANSACTION_ACCESS"),
                   ("propertyName", .str property_name),
                   ("propertyValue", .str value)])) j hgood hbody
  · unfold ue_call_function
    simp [hne, hval]

/-- Closed instance of `set_property_raw_string_forward`. -/
theorem set_property_raw_string_forward_witness :
    ue_set_property envValue "/obj" "Prop" "not json"
      = (ok (.obj [("Value", .num 7)]),
         [Event.http (setPropReq "/obj" "Prop" (.str "not json"))
            (envValue.respond (setPropReq "/obj" "Prop" (.str "not json")))])
    ∧ setPropReq "/obj" "Prop" (.str "not json")
      = ⟨"PUT", "/remote/object/property",
         some (.obj [("objectPath", .str "/obj"),
                     ("access", .str "WRITE_TRANSACTION_ACCESS"),
                     ("propertyName", .str "Prop"),
                     ("propertyValue", .str "not json")])⟩
    ∧ ue_call_function envValue "/obj" "Fn" (some "not json") true
      = (err ("Invalid JSON in parameters: " ++ "not json"), []) :=
  set_property_raw_string_forward envValue "/obj" "Prop" "not json" "Fn" true
    "SyntaxError: Unexpected token" (.obj [("Value", .num 7)])
    rfl (by decide) rfl rfl

/-- C10: when the requests string of `ue_batch` parses to JSON that is
not an array, no validation error is produced: the parsed value is
forwarded to the batch endpoint as the `requests` field of the one PUT
request — only JSON well-formedness is checked before the transport. -/
theorem batch_non_array_forward (env : Env) (requests : String) (j j2 : Json)
    (hpar : env.jsonParse requests = .ok j)
    (_hna : j.isArr = false)
    (hgood : (env.respond (batchReq j)).ok = true)
    (hbody : env.jsonParse (env.respond (batchReq j)).text = .ok j2) :
    ue_batch env requests
      = (ok j2, [Event.http (batchReq j) (env.respond (batchReq j))])
    ∧ batchReq j = ⟨"PUT", "/remote/batch", some (.obj [("requests", j)])⟩ := by
  refine ⟨?_, rfl⟩
  unfold ue_batch
  rw [hpar]
  exact runTool_ue_ok env "PUT" "/remote/batch"
    (some (.obj [("requests", j)])) j2 hgood hbody

/-- Closed instance of `batch_non_array_forward` with a number as the
parsed requests value. -/
theorem batch_non_array_forward_witness :
    ue_batch envValue "5"
      = (ok (.obj [("Value", .num 7)]),
         [Event.http (batchReq (.num 5)) (envValue.respond (batchReq (.num 5)))])
    ∧ batchReq (.num 5)
      = ⟨"PUT", "/remote/batch", some (.obj [("requests", .num 5)])⟩ :=
  batch_non_array_forward envValue "5" (.num 5) (.obj [("Value", .num 7)])
    rfl rfl rfl rfl

/-- Number of HTTP exchanges in a trace. -/
def countHttp (tr : List Event) : Nat :=
  (tr.filter fun e => match e with | .http _ _ => true | _ => false).length

/-- Number of shell reads in a trace. -/
def countShell (tr : List Event) : Nat :=
  (tr.filter fun e => match e with | .shell _ _ => true | _ => false).length

/-- A tool result is uniform when its error flag can only be set by
the `err` wrapper, i.e. a flagged result is `err` of some message. -/
def uniformShape (r : ToolResult) : Prop :=
  r.isError = true → ∃ m, r = err m

/-- `runTool` preserves the trace of the step. -/
theorem runTool_trace (s : Except String Json × List Event) :
    (runTool s).2 = s.2 := by
  obtain ⟨r, tr⟩ := s
  cases r <;> rfl

/-- `runTool` results are uniform. -/
theorem runTool_uniform (s : Except String Json × List Event) :
    uniformShape (runTool s).1 := by
  obtain ⟨r, tr⟩ := s
  cases r with
  | error m => exact fun _ => ⟨m, rfl⟩
  | ok v => intro h; exact absurd h (by simp [runTool, ok])

/-- The trace of a capture run is either the lone dispatch (which
failed) or exactly dispatch, sleep, shell read — never more. -/
theorem capture_trace_cases (env : Env) (code : String) :
    (execPythonWithOutput env code).2
      = [Event.http (pyDispatchReq code) (env.respond (pyDispatchReq code))]
    ∨ (execPythonWithOutput env code).2
      = [Event.http (pyDispatchReq code) (env.respond (pyDispatchReq code)),
         Event.sleep 200,
         Event.shell (sshCmdFor env.sshUser env.host RESULT_FILE)
           (env.shellExec (sshCmdFor env.sshUser env.host RESULT_FILE))] := by
  cases h1 : ueResult env.jsonParse "PUT" "/remote/object/call"
      (env.respond (pyDispatchReq code)) with
  | error m => left; simp [execPythonWithOutput, h1]
  | ok v =>
    right
    cases h2 : env.shellExec (sshCmdFor env.sshUser env.host RESULT_FILE) with
    | error m => simp [execPythonWithOutput, sshRead, h1, h2]
    | ok raw =>
      cases h3 : env.jsonParse raw with
      | error m => simp [execPythonWithOutput, sshRead, h1, h2, h3]
      | ok r =>
        simp only [execPythonWithOutput, sshRead, h1, h2, h3]
        split <;> rfl

/-- `ue_describe_object` results are uniform. -/
theorem describe_uniform (env : Env) (p : String) :
    uniformShape (ue_describe_object env p).1 := by
  unfold uniformShape ue_describe_object ue
  repeat' split
  all_goals first
    | exact fun _ => ⟨_, rfl⟩
    | (intro h; exact absurd h (by simp [ok]))

/-- `ue_search_assets` results are uniform. -/
theorem search_uniform (env : Env) (q : String) (cs pf : Option String) :
    uniformShape (ue_search_assets env q cs pf).1 := by
  unfold uniformShape ue_search_assets ue
  repeat' split
  all_goals first
    | exact fun _ => ⟨_, rfl⟩
    | (intro h; exact absurd h (by simp [ok]))

/-- `ue_exec_console` results are uniform. -/
theorem console_uniform (env : Env) (c : String) :
    uniformShape (ue_exec_console env c).1 := by
  unfold uniformShape ue_exec_console ue
  repeat' split
  all_goals first
    | exact fun _ => ⟨_, rfl⟩
    | (intro h; exact absurd h (by simp [ok]))

/-- `ue_call_function` results are uniform. -/
theorem call_function_uniform (env : Env) (op fn : String) (ps : Option String)
    (gt : Bool) : uniformShape (ue_call_function env op fn ps gt).1 := by
  unfold ue_call_function
  repeat' split
  all_goals first
    | exact fun _ => ⟨_, rfl⟩
    | exact runTool_uniform _

/-- `ue_batch` results are uniform. -/
theorem batch_uniform (env : Env) (rq : String) :
    uniformShape (ue_batch env rq).1 := by
  unfold uniformShape ue_batch ue runTool
  repeat' split
  all_goals first
    | exact fun _ => ⟨_, rfl⟩
    | (intro h; exact absurd h (by simp [ok]))

/-- C8: errors raised by any underlying step of any embedded tool
handler are caught at the handler boundary and converted into the
uniform failure payload (an `Error:`-prefixed message with the error
flag set) — a flagged result is always `err` of some message, a
capture failure surfaces as exactly `err` of the message of the failing step with
the truncated trace, and the capture protocol is single-attempt: its
trace never contains more than one HTTP dispatch nor more than one
shell read, and no retry or fallback event exists. -/
theorem tool_errors_uniform (env : Env)
    (code command object_path property_name function_name value requests query : String)
    (parameters class_names path_filter : Option String) (gt : Bool) :
    uniformShape (ue_exec_python env code).1
    ∧ countHttp (ue_exec_python env code).2 ≤ 1
    ∧ countShell (ue_exec_python env code).2 ≤ 1
    ∧ (∀ m tr, execPythonWithOutput env code = (.error m, tr) →
        ue_exec_python env code = (err m, tr))
    ∧ uniformShape (ue_get_property env object_path property_name).1
    ∧ uniformShape (ue_set_property env object_path property_name value).1
    ∧ uniformShape (ue_call_function env object_path function_name parameters gt).1
    ∧ uniformShape (ue_batch env requests).1
    ∧ uniformShape (ue_describe_object env object_path).1
    ∧ uniformShape (ue_search_assets env query class_names path_filter).1
    ∧ uniformShape (ue_exec_console env command).1
    ∧ uniformShape (ue_remote_info env).1
    ∧ uniformShape (ue_list_actors env).1 := by
  have htr : (ue_exec_python env code).2 = (execPythonWithOutput env code).2 :=
    runTool_trace (execPythonWithOutput env code)
  refine ⟨runTool_uniform _, ?_, ?_, ?_, runTool_uniform _, runTool_uniform _,
    call_function_uniform env object_path function_name parameters gt,
    batch_uniform env requests, describe_uniform env object_path,
    search_uniform env query class_names path_filter, console_uniform env command,
    runTool_uniform _, runTool_uniform _⟩
  · rw [htr]
    rcases capture_trace_cases env code with h | h <;> simp [h, countHttp]
  · rw [htr]
    rcases capture_trace_cases env code with h | h <;> simp [h, countShell]
  · intro m tr h
    unfold ue_exec_python runTool
    rw [h]

end UnrealMcp
